import Mathlib

/-!
Shallow embedding of the Spotify data API service (`app.py`): a Flask/SQLAlchemy
CRUD service over three entities (Artist, Album, Track) backed by a relational
store, plus the `parse_release_date` utility.

Modelling conventions:
* JSON request/response bodies are modelled by the inductive `JVal`
  (JSON numbers are modelled as integers; no claim involves fractional numbers).
* Python `datetime.date` is modelled by `PyDate` (year/month/day as naturals).
* The relational store reached through SQLAlchemy is modelled as in-memory
  lists together with the constraints declared on the models in `app.py`
  (`primary_key=True`, `nullable=False`, `db.ForeignKey`): an insert appends
  a row, and raises (returns `Except.error`) on a null id/name, a missing
  foreign-key target, or a duplicate primary key — exactly the failures the
  relational engine raises for the declared schema.
* Each route handler takes an extra `fault : Option String` argument modelling
  an arbitrary unexpected exception raised inside the try block of the handler
  (e.g. a lost database connection); `none` means no such exception occurs.
  On any exception the source rolls the session back and returns an error
  response, so the handler returns the store unchanged.
* Python string digits are modelled as ASCII digits.
-/

namespace SpotifyApi

/-- A JSON value, as produced by the Flask call `request.get_json()`. -/
inductive JVal where
  | null
  | bool (b : Bool)
  | num (n : Int)
  | str (s : String)
  | arr (elems : List JVal)
  | obj (fields : List (String × JVal))

/-- Python truthiness of a parsed JSON value (`if not data:` in the handlers):
`None`, `False`, `0`, `""`, `[]` and `{}` are falsy, everything else truthy. -/
def JVal.truthy : JVal → Bool
  | .null => false
  | .bool b => b
  | .num n => n != 0
  | .str s => s != ""
  | .arr xs => !xs.isEmpty
  | .obj kvs => !kvs.isEmpty

/-- Model of `data.get(k)` on a parsed JSON body: key lookup when the body is an
object, no value otherwise. -/
def JVal.getKey : JVal → String → Option JVal
  | .obj kvs, k => (kvs.find? (fun kv => kv.1 == k)).map (fun kv => kv.2)
  | _, _ => none

/-- A Python `datetime.date` value. -/
structure PyDate where
  year : Nat
  month : Nat
  day : Nat
deriving DecidableEq, Repr

/-- Gregorian leap-year test, as used by `datetime`. -/
def isLeap (y : Nat) : Bool :=
  y % 4 == 0 && (y % 100 != 0 || y % 400 == 0)

/-- Number of days in a month, as used by `datetime` to validate a date. -/
def daysInMonth (y m : Nat) : Nat :=
  if m == 2 then (if isLeap y then 29 else 28)
  else if m == 4 || m == 6 || m == 9 || m == 11 then 30
  else 31

/-- Decimal value of a digit character. -/
def digitVal (c : Char) : Nat := c.toNat - 48

/-- Decimal value of a list of digit characters (most significant first). -/
def natOfDigits (cs : List Char) : Nat :=
  cs.foldl (fun a c => a * 10 + digitVal c) 0

/-- Model of `datetime.strptime(s, "%Y").date()`.
The `%Y` directive matches exactly four decimal digits and the whole input
must be consumed; the resulting year must be a representable `datetime` year
(`1 ≤ y`; four digits already bound it by 9999), with month and day defaulting
to 1.  Any failure raises (`Except.error`). -/
def strptimeY (s : String) : Except String PyDate :=
  match s.toList with
  | [a, b, c, d] =>
    if (a.isDigit && b.isDigit && c.isDigit && d.isDigit) then
      if natOfDigits [a, b, c, d] == 0 then
        Except.error "ValueError: year 0 is out of range"
      else Except.ok ⟨natOfDigits [a, b, c, d], 1, 1⟩
    else Except.error "ValueError: time data does not match format %Y"
  | _ => Except.error "ValueError: time data does not match format %Y"

/-- Model of `datetime.strptime(s, "%Y-%m").date()` on a 7-character input.
`%m` matches a one- or two-digit month in 1..12; since the whole 7-character
input must be consumed, the month here is exactly two digits with value
1..12 (the regex alternation accepts exactly 01..09, 10, 11, 12).  The day
defaults to 1. -/
def strptimeYm (s : String) : Except String PyDate :=
  match s.toList with
  | [a, b, c, d, sep, m1, m2] =>
    if (a.isDigit && b.isDigit && c.isDigit && d.isDigit && sep == '-'
        && m1.isDigit && m2.isDigit
        && 1 ≤ natOfDigits [m1, m2] && natOfDigits [m1, m2] ≤ 12) then
      if natOfDigits [a, b, c, d] == 0 then
        Except.error "ValueError: year 0 is out of range"
      else Except.ok ⟨natOfDigits [a, b, c, d], natOfDigits [m1, m2], 1⟩
    else Except.error "ValueError: time data does not match format %Y-%m"
  | _ => Except.error "ValueError: time data does not match format %Y-%m"

/-- Model of `datetime.strptime(s, "%Y-%m-%d").date()` on a 10-character
input.  As the whole input must be consumed, month and day are exactly two
digits each; `%d` accepts two-digit values 01..31, and the constructed
`datetime` additionally requires the day to exist in the given month
(otherwise `ValueError: day is out of range for month`). -/
def strptimeYmd (s : String) : Except String PyDate :=
  match s.toList with
  | [a, b, c, d, sep1, m1, m2, sep2, d1, d2] =>
    if (a.isDigit && b.isDigit && c.isDigit && d.isDigit
        && sep1 == '-' && sep2 == '-'
        && m1.isDigit && m2.isDigit
        && 1 ≤ natOfDigits [m1, m2] && natOfDigits [m1, m2] ≤ 12
        && d1.isDigit && d2.isDigit
        && 1 ≤ natOfDigits [d1, d2] && natOfDigits [d1, d2] ≤ 31) then
      if natOfDigits [a, b, c, d] == 0 then
        Except.error "ValueError: year 0 is out of range"
      else if natOfDigits [d1, d2] ≤ daysInMonth (natOfDigits [a, b, c, d]) (natOfDigits [m1, m2]) then
        Except.ok ⟨natOfDigits [a, b, c, d], natOfDigits [m1, m2], natOfDigits [d1, d2]⟩
      else Except.error "ValueError: day is out of range for month"
    else Except.error "ValueError: time data does not match format %Y-%m-%d"
  | _ => Except.error "ValueError: time data does not match format %Y-%m-%d"

/-- The body of the try block of `parse_release_date`: dispatch on `len(date_str)`.
`len(None)` raises a `TypeError`; an unhandled length returns `None`. -/
def parse_release_date_try : Option String → Except String (Option PyDate)
  | none => Except.error "TypeError: object of type NoneType has no len()"
  | some s =>
    if s.length == 4 then (strptimeY s).map some
    else if s.length == 7 then (strptimeYm s).map some
    else if s.length == 10 then (strptimeYmd s).map some
    else Except.ok none

/-- Function `parse_release_date` from `app.py`: the `try` body with every exception
swallowed (logged) and turned into `None`. -/
def parse_release_date (x : Option String) : Option PyDate :=
  match parse_release_date_try x with
  | Except.ok v => v
  | Except.error _ => none

/-! ## Entity records

One structure per SQLAlchemy model in `app.py`.  A field built from
`data.get(k)` may be `None` (key absent or JSON `null`), so every column is
an `Option`; the `nullable=False` columns are enforced by the store at
insert time, as in the relational engine. -/

/-- The `Artist` model: `id` (String primary key), `name` (String, not null),
`genres` (String), `popularity` (Integer), `followers` (Integer), `uri`
(String). -/
structure Artist where
  id : Option String
  name : Option String
  genres : Option String
  popularity : Option Int
  followers : Option Int
  uri : Option String
deriving DecidableEq, Repr

/-- The `Album` model: `id` (String primary key), `artist_id` (String, not
null, foreign key to `artists.id`), `name` (String, not null), `album_type`
(String), `release_date` (Date), `release_date_precision` (String),
`total_tracks` (Integer), `uri` (String). -/
structure Album where
  id : Option String
  artist_id : Option String
  name : Option String
  album_type : Option String
  release_date : Option PyDate
  release_date_precision : Option String
  total_tracks : Option Int
  uri : Option String
deriving DecidableEq, Repr

/-- The `Track` model: `id` (String primary key), `album_id` (String, not
null, foreign key to `albums.id`), `name` (String, not null),
`track_number` (Integer), `duration_ms` (Integer), `explicit` (Boolean),
`uri` (String), `is_local` (Boolean). -/
structure Track where
  id : Option String
  album_id : Option String
  name : Option String
  track_number : Option Int
  duration_ms : Option Int
  explicit : Option Bool
  uri : Option String
  is_local : Option Bool
deriving DecidableEq, Repr

/-! ## Serialization (`to_dict` + `jsonify`) -/

/-- A nullable string column serialized to JSON. -/
def jStr : Option String → JVal
  | none => JVal.null
  | some s => JVal.str s

/-- A nullable integer column serialized to JSON. -/
def jInt : Option Int → JVal
  | none => JVal.null
  | some n => JVal.num n

/-- A nullable boolean column serialized to JSON. -/
def jBool : Option Bool → JVal
  | none => JVal.null
  | some b => JVal.bool b

/-- Zero-padded decimal rendering used to serialize a stored date. -/
def padNum (width n : Nat) : String :=
  let s := toString n
  String.mk (List.replicate (width - s.length) '0') ++ s

/-- Rendering of a stored `datetime.date` as a date string. -/
def dateString (d : PyDate) : String :=
  padNum 4 d.year ++ "-" ++ padNum 2 d.month ++ "-" ++ padNum 2 d.day

/-- A nullable date column serialized to JSON (`null` when unset). -/
def jDate : Option PyDate → JVal
  | none => JVal.null
  | some d => JVal.str (dateString d)

/-- Serialization `Artist.to_dict` from `app.py`. -/
def Artist.to_dict (a : Artist) : JVal :=
  JVal.obj [("id", jStr a.id), ("name", jStr a.name), ("genres", jStr a.genres),
    ("popularity", jInt a.popularity), ("followers", jInt a.followers),
    ("uri", jStr a.uri)]

/-- Serialization `Album.to_dict` from `app.py`. -/
def Album.to_dict (a : Album) : JVal :=
  JVal.obj [("id", jStr a.id), ("artist_id", jStr a.artist_id),
    ("name", jStr a.name), ("album_type", jStr a.album_type),
    ("release_date", jDate a.release_date),
    ("release_date_precision", jStr a.release_date_precision),
    ("total_tracks", jInt a.total_tracks), ("uri", jStr a.uri)]

/-- Serialization `Track.to_dict` from `app.py`. -/
def Track.to_dict (t : Track) : JVal :=
  JVal.obj [("id", jStr t.id), ("album_id", jStr t.album_id),
    ("name", jStr t.name), ("track_number", jInt t.track_number),
    ("duration_ms", jInt t.duration_ms), ("explicit", jBool t.explicit),
    ("uri", jStr t.uri), ("is_local", jBool t.is_local)]

/-! ## The store -/

/-- The relational store: one table per model, rows in insertion order. -/
structure Store where
  artists : List Artist
  albums : List Album
  tracks : List Track
deriving DecidableEq, Repr

/-- The store with no rows. -/
def Store.empty : Store := ⟨[], [], []⟩

/-- Insert into `artists`: append the row, or raise on a null value in a
`nullable=False` column or a duplicate primary key. -/
def insertArtist (st : Store) (a : Artist) : Except String Store :=
  if a.id.isNone then
    Except.error "null value in column id of relation artists violates not-null constraint"
  else if a.name.isNone then
    Except.error "null value in column name of relation artists violates not-null constraint"
  else if st.artists.any (fun r => r.id == a.id) then
    Except.error "duplicate key value violates unique constraint artists_pkey"
  else Except.ok { st with artists := st.artists ++ [a] }

/-- Insert into `albums`: append the row, or raise on a null value in a
`nullable=False` column, a `artist_id` with no matching artist row, or a
duplicate primary key. -/
def insertAlbum (st : Store) (a : Album) : Except String Store :=
  if a.id.isNone then
    Except.error "null value in column id of relation albums violates not-null constraint"
  else if a.artist_id.isNone then
    Except.error "null value in column artist_id of relation albums violates not-null constraint"
  else if a.name.isNone then
    Except.error "null value in column name of relation albums violates not-null constraint"
  else if !(st.artists.any (fun r => r.id == a.artist_id)) then
    Except.error "insert or update on table albums violates foreign key constraint albums_artist_id_fkey"
  else if st.albums.any (fun r => r.id == a.id) then
    Except.error "duplicate key value violates unique constraint albums_pkey"
  else Except.ok { st with albums := st.albums ++ [a] }

/-- Insert into `tracks`: append the row, or raise on a null value in a
`nullable=False` column, an `album_id` with no matching album row, or a
duplicate primary key. -/
def insertTrack (st : Store) (t : Track) : Except String Store :=
  if t.id.isNone then
    Except.error "null value in column id of relation tracks violates not-null constraint"
  else if t.album_id.isNone then
    Except.error "null value in column album_id of relation tracks violates not-null constraint"
  else if t.name.isNone then
    Except.error "null value in column name of relation tracks violates not-null constraint"
  else if !(st.albums.any (fun r => r.id == t.album_id)) then
    Except.error "insert or update on table tracks violates foreign key constraint tracks_album_id_fkey"
  else if st.tracks.any (fun r => r.id == t.id) then
    Except.error "duplicate key value violates unique constraint tracks_pkey"
  else Except.ok { st with tracks := st.tracks ++ [t] }

/-! ## Field extraction from the request body

`data.get(k)` yields the JSON value at key `k`, or `None`.  A present value
of the wrong type for the column is rejected by the store when the row is
flushed; this is modelled by the extraction returning `none` (overall
construction-and-insert fails), while an absent key or JSON `null` yields a
`NULL` column value (`some none`). -/

/-- Extract a nullable string column value from the body. -/
def getOptStr (d : JVal) (k : String) : Option (Option String) :=
  match d.getKey k with
  | none => some none
  | some JVal.null => some none
  | some (JVal.str s) => some (some s)
  | some _ => none

/-- Extract a nullable integer column value from the body. -/
def getOptInt (d : JVal) (k : String) : Option (Option Int) :=
  match d.getKey k with
  | none => some none
  | some JVal.null => some none
  | some (JVal.num n) => some (some n)
  | some _ => none

/-- Extract a nullable boolean column value from the body. -/
def getOptBool (d : JVal) (k : String) : Option (Option Bool) :=
  match d.getKey k with
  | none => some none
  | some JVal.null => some none
  | some (JVal.bool b) => some (some b)
  | some _ => none

/-- Model of the release_date field of the body fed to `parse_release_date`: a JSON string is
passed through; any non-string value makes `parse_release_date` raise
internally (`len`/`strptime` `TypeError`) and hence return `None`. -/
def parseReleaseDateField (v : Option JVal) : Option PyDate :=
  match v with
  | some (JVal.str s) => parse_release_date (some s)
  | _ => none

/-- The `Artist(...)` construction in `add_artist`, including the type
adaptation performed when the row is flushed. -/
def artistFromJson (d : JVal) : Option Artist :=
  match getOptStr d "id", getOptStr d "name", getOptStr d "genres",
      getOptInt d "popularity", getOptInt d "followers", getOptStr d "uri" with
  | some id, some name, some genres, some pop, some fol, some uri =>
    some ⟨id, name, genres, pop, fol, uri⟩
  | _, _, _, _, _, _ => none

/-- The `Album(...)` construction in `add_album`, with
`parse_release_date` applied to the release_date field. -/
def albumFromJson (d : JVal) : Option Album :=
  match getOptStr d "id", getOptStr d "artist_id", getOptStr d "name",
      getOptStr d "album_type", getOptStr d "release_date_precision",
      getOptInt d "total_tracks", getOptStr d "uri" with
  | some id, some artist_id, some name, some aty, some rdp, some tt, some uri =>
    some ⟨id, artist_id, name, aty, parseReleaseDateField (d.getKey "release_date"), rdp, tt, uri⟩
  | _, _, _, _, _, _, _ => none

/-- The `Track(...)` construction in `add_track`. -/
def trackFromJson (d : JVal) : Option Track :=
  match getOptStr d "id", getOptStr d "album_id", getOptStr d "name",
      getOptInt d "track_number", getOptInt d "duration_ms",
      getOptBool d "explicit", getOptStr d "uri", getOptBool d "is_local" with
  | some id, some album_id, some name, some tn, some dm, some ex, some uri, some il =>
    some ⟨id, album_id, name, tn, dm, ex, uri, il⟩
  | _, _, _, _, _, _, _, _ => none

/-! ## HTTP responses and route handlers -/

/-- An HTTP response: status code and JSON body. -/
structure HttpResponse where
  status : Nat
  body : JVal

/-- The `{"error": ...}` body. -/
def errBody (e : String) : JVal := JVal.obj [("error", JVal.str e)]

/-- The `{"message": ...}` body. -/
def msgBody (m : String) : JVal := JVal.obj [("message", JVal.str m)]

/-- Handler `POST /artists` (`add_artist`): reject a missing or falsy body with 400,
otherwise construct and insert the artist inside `try`; any failure rolls
the session back and answers 400 with the failure text. -/
def add_artist (fault : Option String) (data : Option JVal) (st : Store) :
    HttpResponse × Store :=
  match data with
  | none => (⟨400, errBody "No input data provided"⟩, st)
  | some d =>
    if !d.truthy then (⟨400, errBody "No input data provided"⟩, st)
    else
      match fault with
      | some e => (⟨400, errBody e⟩, st)
      | none =>
        match artistFromJson d with
        | none => (⟨400, errBody "invalid value type for a column of relation artists"⟩, st)
        | some a =>
          match insertArtist st a with
          | Except.error e => (⟨400, errBody e⟩, st)
          | Except.ok st2 => (⟨201, msgBody "Artist added successfully"⟩, st2)

/-- Handler `GET /artists` (`get_artists`): 200 with every artist serialized, in
table order; 500 with the failure text on an unexpected exception. -/
def get_artists (fault : Option String) (st : Store) : HttpResponse :=
  match fault with
  | some e => ⟨500, errBody e⟩
  | none => ⟨200, JVal.arr (st.artists.map Artist.to_dict)⟩

/-- Handler `GET /artists/<id>` (`get_artist`): `Artist.query.get(id)`, 404 when no
row has that primary key, else 200 with the row serialized; 500 on an
unexpected exception. -/
def get_artist (fault : Option String) (i : String) (st : Store) : HttpResponse :=
  match fault with
  | some e => ⟨500, errBody e⟩
  | none =>
    match st.artists.find? (fun r => r.id == some i) with
    | none => ⟨404, errBody "Artist not found"⟩
    | some a => ⟨200, a.to_dict⟩

/-- Handler `POST /albums` (`add_album`), structured exactly like `add_artist`. -/
def add_album (fault : Option String) (data : Option JVal) (st : Store) :
    HttpResponse × Store :=
  match data with
  | none => (⟨400, errBody "No input data provided"⟩, st)
  | some d =>
    if !d.truthy then (⟨400, errBody "No input data provided"⟩, st)
    else
      match fault with
      | some e => (⟨400, errBody e⟩, st)
      | none =>
        match albumFromJson d with
        | none => (⟨400, errBody "invalid value type for a column of relation albums"⟩, st)
        | some a =>
          match insertAlbum st a with
          | Except.error e => (⟨400, errBody e⟩, st)
          | Except.ok st2 => (⟨201, msgBody "Album added successfully"⟩, st2)

/-- Handler `GET /albums` (`get_albums`). -/
def get_albums (fault : Option String) (st : Store) : HttpResponse :=
  match fault with
  | some e => ⟨500, errBody e⟩
  | none => ⟨200, JVal.arr (st.albums.map Album.to_dict)⟩

/-- Handler `GET /albums/<id>` (`get_album`). -/
def get_album (fault : Option String) (i : String) (st : Store) : HttpResponse :=
  match fault with
  | some e => ⟨500, errBody e⟩
  | none =>
    match st.albums.find? (fun r => r.id == some i) with
    | none => ⟨404, errBody "Album not found"⟩
    | some a => ⟨200, a.to_dict⟩

/-- Handler `POST /tracks` (`add_track`), structured exactly like `add_artist`. -/
def add_track (fault : Option String) (data : Option JVal) (st : Store) :
    HttpResponse × Store :=
  match data with
  | none => (⟨400, errBody "No input data provided"⟩, st)
  | some d =>
    if !d.truthy then (⟨400, errBody "No input data provided"⟩, st)
    else
      match fault with
      | some e => (⟨400, errBody e⟩, st)
      | none =>
        match trackFromJson d with
        | none => (⟨400, errBody "invalid value type for a column of relation tracks"⟩, st)
        | some t =>
          match insertTrack st t with
          | Except.error e => (⟨400, errBody e⟩, st)
          | Except.ok st2 => (⟨201, msgBody "Track added successfully"⟩, st2)

/-- Handler `GET /tracks` (`get_tracks`). -/
def get_tracks (fault : Option String) (st : Store) : HttpResponse :=
  match fault with
  | some e => ⟨500, errBody e⟩
  | none => ⟨200, JVal.arr (st.tracks.map Track.to_dict)⟩

/-- Handler `GET /tracks/<id>` (`get_track`). -/
def get_track (fault : Option String) (i : String) (st : Store) : HttpResponse :=
  match fault with
  | some e => ⟨500, errBody e⟩
  | none =>
    match st.tracks.find? (fun r => r.id == some i) with
    | none => ⟨404, errBody "Track not found"⟩
    | some t => ⟨200, t.to_dict⟩

/-! ## Spec-side date descriptions

These predicates phrase, in the vocabulary of the spec, what it means for an input
string to denote a year, a year-month, or a year-month-day; the Date Parser
claim compares `parse_release_date` against them. -/

/-- The string is a 4-digit decimal year `y` representable by `datetime`. -/
def denotesYear (s : String) (y : Nat) : Prop :=
  s.length = 4 ∧ s.toList.all Char.isDigit ∧ natOfDigits s.toList = y ∧ 1 ≤ y

/-- The string is `"YYYY-MM"` denoting year `y` and month `m`. -/
def denotesYearMonth (s : String) (y m : Nat) : Prop :=
  s.length = 7 ∧ (s.toList.take 4).all Char.isDigit ∧ s.toList[4]? = some '-' ∧
  (s.toList.drop 5).all Char.isDigit ∧ natOfDigits (s.toList.take 4) = y ∧
  natOfDigits (s.toList.drop 5) = m ∧ 1 ≤ y ∧ 1 ≤ m ∧ m ≤ 12

/-- The string is `"YYYY-MM-DD"` denoting the existing calendar date
`y`-`m`-`d`. -/
def denotesYmd (s : String) (y m d : Nat) : Prop :=
  s.length = 10 ∧ (s.toList.take 4).all Char.isDigit ∧ s.toList[4]? = some '-' ∧
  ((s.toList.drop 5).take 2).all Char.isDigit ∧ s.toList[7]? = some '-' ∧
  (s.toList.drop 8).all Char.isDigit ∧
  natOfDigits (s.toList.take 4) = y ∧ natOfDigits ((s.toList.drop 5).take 2) = m ∧
  natOfDigits (s.toList.drop 8) = d ∧
  1 ≤ y ∧ 1 ≤ m ∧ m ≤ 12 ∧ 1 ≤ d ∧ d ≤ daysInMonth y m

instance (s : String) (y : Nat) : Decidable (denotesYear s y) := by
  unfold denotesYear; infer_instance

instance (s : String) (y m : Nat) : Decidable (denotesYearMonth s y m) := by
  unfold denotesYearMonth; infer_instance

instance (s : String) (y m d : Nat) : Decidable (denotesYmd s y m d) := by
  unfold denotesYmd; infer_instance

/-! ## Helper lemmas -/

lemma toList_length (s : String) : s.toList.length = s.length := rfl

lemma daysInMonth_le (y m : Nat) : daysInMonth y m ≤ 31 := by
  unfold daysInMonth
  split <;> [skip; split] <;> [split <;> omega; omega; omega]

lemma getOptStr_str {d : JVal} {k v : String}
    (h : getOptStr d k = some (some v)) : d.getKey k = some (JVal.str v) := by
  unfold getOptStr at h
  cases hk : d.getKey k with
  | none => rw [hk] at h; simp at h
  | some j => rw [hk] at h; cases j <;> simp_all

lemma getKey_truthy {d : JVal} {k : String} {j : JVal}
    (h : d.getKey k = some j) : d.truthy = true := by
  cases d <;> try simp [JVal.getKey] at h
  rename_i kvs
  cases kvs with
  | nil => simp at h
  | cons kv rest => rfl

lemma artistFromJson_id {d : JVal} {a : Artist}
    (h : artistFromJson d = some a) : getOptStr d "id" = some a.id := by
  unfold artistFromJson at h
  split at h
  · rename_i h1 h2 h3 h4 h5 h6
    cases h
    exact h1
  · exact Option.noConfusion h

/-! ## Claim theorems -/

/-- C2: For every input string, the Date Parser maps a length-4 input
denoting a year to January 1 of that year, a length-7 input denoting a
year-month to the first day of that year-month, a length-10 input denoting
a year-month-day to that exact date, and an input of any other length to no
value. -/
theorem date_parser_maps_lengths (s : String) :
    (∀ y, denotesYear s y → parse_release_date (some s) = some ⟨y, 1, 1⟩) ∧
    (∀ y m, denotesYearMonth s y m → parse_release_date (some s) = some ⟨y, m, 1⟩) ∧
    (∀ y m d, denotesYmd s y m d → parse_release_date (some s) = some ⟨y, m, d⟩) ∧
    (s.length ≠ 4 → s.length ≠ 7 → s.length ≠ 10 → parse_release_date (some s) = none) := by
  refine ⟨?_, ?_, ?_, ?_⟩
  · intro y hy
    obtain ⟨hl, hdig, hval, hpos⟩ := hy
    have hl4 : s.toList.length = 4 := by rw [toList_length, hl]
    rcases hcs : s.toList with _ | ⟨a, _ | ⟨b, _ | ⟨c, _ | ⟨d, t⟩⟩⟩⟩ <;>
      rw [hcs] at hl4 <;> simp at hl4
    subst hl4
    rw [hcs] at hdig hval
    simp at hdig
    obtain ⟨ha, hb, hc, hd⟩ := hdig
    have hdata : s.data = [a, b, c, d] := hcs
    simp [parse_release_date, parse_release_date_try, hl, strptimeY, hdata,
      ha, hb, hc, hd, hval]
    rw [if_neg (by omega : ¬ y = 0)]
    rfl
  · intro y m hy
    obtain ⟨hl, hdig1, hsep, hdig2, hy1, hm1, hypos, hmlo, hmhi⟩ := hy
    have hl7 : s.toList.length = 7 := by rw [toList_length, hl]
    rcases hcs : s.toList with _ | ⟨a, _ | ⟨b, _ | ⟨c, _ | ⟨d, _ | ⟨e, _ | ⟨f, _ | ⟨g, t⟩⟩⟩⟩⟩⟩⟩ <;>
      rw [hcs] at hl7 <;> simp at hl7
    subst hl7
    rw [hcs] at hdig1 hsep hdig2 hy1 hm1
    simp at hdig1 hsep hdig2 hy1 hm1
    obtain ⟨ha, hb, hc, hd⟩ := hdig1
    obtain ⟨hf, hg⟩ := hdig2
    subst hsep
    have hdata : s.data = [a, b, c, d, '-', f, g] := hcs
    simp [parse_release_date, parse_release_date_try, hl, strptimeYm, hdata,
      ha, hb, hc, hd, hf, hg, hy1, hm1, hmlo, hmhi]
    rw [if_neg (by omega : ¬ y = 0)]
    rfl
  · intro y m d hy
    obtain ⟨hl, hdig1, hsep1, hdig2, hsep2, hdig3, hy1, hm1, hd1,
      hypos, hmlo, hmhi, hdlo, hdhi⟩ := hy
    have hl10 : s.toList.length = 10 := by rw [toList_length, hl]
    rcases hcs : s.toList with
      _ | ⟨a, _ | ⟨b, _ | ⟨c, _ | ⟨e, _ | ⟨f, _ | ⟨g, _ | ⟨h8, _ | ⟨i, _ | ⟨j, _ | ⟨k, t⟩⟩⟩⟩⟩⟩⟩⟩⟩⟩ <;>
      rw [hcs] at hl10 <;> simp at hl10
    subst hl10
    rw [hcs] at hdig1 hsep1 hdig2 hsep2 hdig3 hy1 hm1 hd1
    simp at hdig1 hsep1 hdig2 hsep2 hdig3 hy1 hm1 hd1
    obtain ⟨ha, hb, hc, he⟩ := hdig1
    obtain ⟨hg, hh⟩ := hdig2
    obtain ⟨hj, hk⟩ := hdig3
    subst hsep1
    subst hsep2
    have hd31 : natOfDigits [j, k] ≤ 31 := by
      rw [hd1]; exact le_trans hdhi (daysInMonth_le y m)
    have hdata : s.data = [a, b, c, e, '-', g, h8, '-', j, k] := hcs
    simp [parse_release_date, parse_release_date_try, hl, strptimeYmd, hdata,
      ha, hb, hc, he, hg, hh, hj, hk, hy1, hm1, hd1, hmlo, hmhi, hdlo, hd31]
    rw [if_neg (by omega : ¬ y = 0), if_pos hdhi]
    rw [if_pos (by omega : d ≤ 31)]
    rfl
  · intro h4 h7 h10
    simp [parse_release_date, parse_release_date_try, h4, h7, h10]

/-- Witness for C2 at the examples given in the spec. -/
theorem date_parser_maps_lengths_witness :
    parse_release_date (some "2020") = some ⟨2020, 1, 1⟩ ∧
    parse_release_date (some "2020-05") = some ⟨2020, 5, 1⟩ ∧
    parse_release_date (some "2020-05-17") = some ⟨2020, 5, 17⟩ ∧
    parse_release_date (some "2020-05-1") = none :=
  ⟨(date_parser_maps_lengths "2020").1 2020 (by decide),
   (date_parser_maps_lengths "2020-05").2.1 2020 5 (by decide),
   (date_parser_maps_lengths "2020-05-17").2.2.1 2020 5 17 (by decide),
   (date_parser_maps_lengths "2020-05-1").2.2.2 (by decide) (by decide) (by decide)⟩

/-- C3: `parse_release_date` never propagates a failure: an absent input
returns no value, and whenever the body of its `try` block raises, the
function returns no value (`none`) instead of erroring. -/
theorem date_parser_never_raises (x : Option String) :
    parse_release_date none = none ∧
    (∀ e, parse_release_date_try x = Except.error e → parse_release_date x = none) := by
  refine ⟨rfl, ?_⟩
  intro e he
  simp [parse_release_date, he]

/-- Witness for C3 at the absent (`None`) input, whose `len()` call raises
a `TypeError`. -/
theorem date_parser_never_raises_witness :
    parse_release_date none = none :=
  (date_parser_never_raises none).2 "TypeError: object of type NoneType has no len()" rfl

/-- C4: For every add endpoint (artist, album, track), a missing or empty
request body (parsed by `request.get_json()` to no value) yields a 400
response with an error message, and no insert is attempted: the store is
unchanged. -/
theorem add_missing_body_rejected (fault : Option String) (st : Store) :
    add_artist fault none st = (⟨400, errBody "No input data provided"⟩, st) ∧
    add_album fault none st = (⟨400, errBody "No input data provided"⟩, st) ∧
    add_track fault none st = (⟨400, errBody "No input data provided"⟩, st) :=
  ⟨rfl, rfl, rfl⟩

/-- C10: For every add endpoint, a request body that parses to a falsy JSON
value — the empty object, `0`, `false`, the empty array, or `null` — is
rejected exactly like a missing body: 400 with "No input data provided",
and the store is unchanged. -/
theorem add_falsy_body_rejected (fault : Option String) (st : Store) (d : JVal)
    (hd : d = JVal.obj [] ∨ d = JVal.num 0 ∨ d = JVal.bool false ∨
      d = JVal.arr [] ∨ d = JVal.null) :
    add_artist fault (some d) st = (⟨400, errBody "No input data provided"⟩, st) ∧
    add_album fault (some d) st = (⟨400, errBody "No input data provided"⟩, st) ∧
    add_track fault (some d) st = (⟨400, errBody "No input data provided"⟩, st) := by
  rcases hd with h | h | h | h | h <;> subst h <;> exact ⟨rfl, rfl, rfl⟩

/-- Witness for C10 at the empty-object body. -/
theorem add_falsy_body_rejected_witness :
    add_artist none (some (JVal.obj [])) Store.empty =
      (⟨400, errBody "No input data provided"⟩, Store.empty) :=
  (add_falsy_body_rejected none Store.empty (JVal.obj []) (Or.inl rfl)).1

/-- C9: For every entity type, get-all responds 200 with the JSON array of
all stored records serialized (empty when none exist) in table order, and
500 with the failure text on an unexpected store failure; rows are kept
in insertion order (a successful insert appends). -/
theorem get_all_lists_records (st : Store) (e : String) :
    get_artists none st = ⟨200, JVal.arr (st.artists.map Artist.to_dict)⟩ ∧
    get_albums none st = ⟨200, JVal.arr (st.albums.map Album.to_dict)⟩ ∧
    get_tracks none st = ⟨200, JVal.arr (st.tracks.map Track.to_dict)⟩ ∧
    get_artists (some e) st = ⟨500, errBody e⟩ ∧
    get_albums (some e) st = ⟨500, errBody e⟩ ∧
    get_tracks (some e) st = ⟨500, errBody e⟩ ∧
    (∀ a st2, insertArtist st a = Except.ok st2 → st2.artists = st.artists ++ [a]) ∧
    (∀ a st2, insertAlbum st a = Except.ok st2 → st2.albums = st.albums ++ [a]) ∧
    (∀ t st2, insertTrack st t = Except.ok st2 → st2.tracks = st.tracks ++ [t]) := by
  refine ⟨rfl, rfl, rfl, rfl, rfl, rfl, ?_, ?_, ?_⟩
  · intro a st2 h
    unfold insertArtist at h
    split_ifs at h <;>
      first
        | exact Except.noConfusion h
        | (injection h with h2; rw [← h2])
  · intro a st2 h
    unfold insertAlbum at h
    split_ifs at h <;>
      first
        | exact Except.noConfusion h
        | (injection h with h2; rw [← h2])
  · intro t st2 h
    unfold insertTrack at h
    split_ifs at h <;>
      first
        | exact Except.noConfusion h
        | (injection h with h2; rw [← h2])

/-- Witness for C9: a concrete successful insert appends its row. -/
theorem get_all_lists_records_witness :
    (Store.mk [Artist.mk (some "a1") (some "n") none none none none] [] []).artists =
      Store.empty.artists ++ [Artist.mk (some "a1") (some "n") none none none none] :=
  (get_all_lists_records Store.empty "e").2.2.2.2.2.2.1
    (Artist.mk (some "a1") (some "n") none none none none)
    (Store.mk [Artist.mk (some "a1") (some "n") none none none none] [] []) rfl

/-- C6: For every entity type and id, get-by-id responds 404 with an error
message when no stored record has that id, and 200 with the serialized
record when one does. -/
theorem get_by_id_404_or_200 (st : Store) (i : String) :
    ((∀ r ∈ st.artists, ¬ r.id = some i) →
      get_artist none i st = ⟨404, errBody "Artist not found"⟩) ∧
    (∀ a, a ∈ st.artists → a.id = some i →
      ∃ r, r ∈ st.artists ∧ r.id = some i ∧ get_artist none i st = ⟨200, r.to_dict⟩) ∧
    ((∀ r ∈ st.albums, ¬ r.id = some i) →
      get_album none i st = ⟨404, errBody "Album not found"⟩) ∧
    (∀ a, a ∈ st.albums → a.id = some i →
      ∃ r, r ∈ st.albums ∧ r.id = some i ∧ get_album none i st = ⟨200, r.to_dict⟩) ∧
    ((∀ r ∈ st.tracks, ¬ r.id = some i) →
      get_track none i st = ⟨404, errBody "Track not found"⟩) ∧
    (∀ a, a ∈ st.tracks → a.id = some i →
      ∃ r, r ∈ st.tracks ∧ r.id = some i ∧ get_track none i st = ⟨200, r.to_dict⟩) := by
  refine ⟨?_, ?_, ?_, ?_, ?_, ?_⟩
  · intro h
    have hf : st.artists.find? (fun r => r.id == some i) = none := by
      rw [List.find?_eq_none]
      intro x hx
      simpa using h x hx
    simp [get_artist, hf]
  · intro a ha hai
    have hsome : (st.artists.find? (fun r => r.id == some i)).isSome := by
      rw [List.find?_isSome]
      exact ⟨a, ha, by simpa using hai⟩
    obtain ⟨r, hr⟩ := Option.isSome_iff_exists.mp hsome
    refine ⟨r, List.mem_of_find?_eq_some hr, by simpa using List.find?_some hr, ?_⟩
    simp [get_artist, hr]
  · intro h
    have hf : st.albums.find? (fun r => r.id == some i) = none := by
      rw [List.find?_eq_none]
      intro x hx
      simpa using h x hx
    simp [get_album, hf]
  · intro a ha hai
    have hsome : (st.albums.find? (fun r => r.id == some i)).isSome := by
      rw [List.find?_isSome]
      exact ⟨a, ha, by simpa using hai⟩
    obtain ⟨r, hr⟩ := Option.isSome_iff_exists.mp hsome
    refine ⟨r, List.mem_of_find?_eq_some hr, by simpa using List.find?_some hr, ?_⟩
    simp [get_album, hr]
  · intro h
    have hf : st.tracks.find? (fun r => r.id == some i) = none := by
      rw [List.find?_eq_none]
      intro x hx
      simpa using h x hx
    simp [get_track, hf]
  · intro a ha hai
    have hsome : (st.tracks.find? (fun r => r.id == some i)).isSome := by
      rw [List.find?_isSome]
      exact ⟨a, ha, by simpa using hai⟩
    obtain ⟨r, hr⟩ := Option.isSome_iff_exists.mp hsome
    refine ⟨r, List.mem_of_find?_eq_some hr, by simpa using List.find?_some hr, ?_⟩
    simp [get_track, hr]

/-- Witness for C6: a nonexistent id on the empty store answers 404. -/
theorem get_by_id_404_or_200_witness :
    get_artist none "missing" Store.empty = ⟨404, errBody "Artist not found"⟩ :=
  (get_by_id_404_or_200 Store.empty "missing").1 (by simp [Store.empty])

/-- C5: For every add operation, if the insert fails for any reason — an
unexpected exception in the try block of the handler, or a constraint failure
raised by the store — the attempted write is discarded (the store is
returned unchanged, no partial record) and the response is 400 carrying
the textual description of the failure. -/
theorem add_failure_rolls_back (st : Store) (d : JVal) (e : String)
    (hd : d.truthy = true) :
    add_artist (some e) (some d) st = (⟨400, errBody e⟩, st) ∧
    add_album (some e) (some d) st = (⟨400, errBody e⟩, st) ∧
    add_track (some e) (some d) st = (⟨400, errBody e⟩, st) ∧
    (∀ a e2, artistFromJson d = some a → insertArtist st a = Except.error e2 →
      add_artist none (some d) st = (⟨400, errBody e2⟩, st)) ∧
    (∀ a e2, albumFromJson d = some a → insertAlbum st a = Except.error e2 →
      add_album none (some d) st = (⟨400, errBody e2⟩, st)) ∧
    (∀ t e2, trackFromJson d = some t → insertTrack st t = Except.error e2 →
      add_track none (some d) st = (⟨400, errBody e2⟩, st)) := by
  refine ⟨?_, ?_, ?_, ?_, ?_, ?_⟩
  · simp [add_artist, hd]
  · simp [add_album, hd]
  · simp [add_track, hd]
  · intro a e2 h1 h2
    simp [add_artist, hd, h1, h2]
  · intro a e2 h1 h2
    simp [add_album, hd, h1, h2]
  · intro t e2 h1 h2
    simp [add_track, hd, h1, h2]

/-- Witness for C5: an unexpected failure while adding an artist answers
400 with the failure text and leaves the store unchanged. -/
theorem add_failure_rolls_back_witness :
    add_artist (some "connection lost") (some (JVal.obj [("name", JVal.str "x")]))
      Store.empty = (⟨400, errBody "connection lost"⟩, Store.empty) :=
  (add_failure_rolls_back Store.empty (JVal.obj [("name", JVal.str "x")])
    "connection lost" rfl).1

/-- C7: identity uniqueness is preserved: when the store already holds
exactly one artist with id `i`, a second add whose body carries that same
id fails with status 400, the store is unchanged, and the artists table
still holds exactly one artist with id `i`. -/
theorem duplicate_artist_id_rejected (st : Store) (d : JVal) (i : String)
    (hid : d.getKey "id" = some (JVal.str i))
    (hcount : st.artists.countP (fun r => r.id == some i) = 1) :
    (add_artist none (some d) st).1.status = 400 ∧
    (add_artist none (some d) st).2 = st ∧
    (add_artist none (some d) st).2.artists.countP (fun r => r.id == some i) = 1 := by
  have htr : d.truthy = true := getKey_truthy hid
  cases hfa : artistFromJson d with
  | none =>
    refine ⟨?_, ?_, ?_⟩ <;> simp [add_artist, htr, hfa, hcount]
  | some a =>
    have haid : a.id = some i := by
      have h1 := artistFromJson_id hfa
      have h2 : getOptStr d "id" = some (some i) := by simp [getOptStr, hid]
      rw [h1] at h2
      simpa using h2
    have hany : st.artists.any (fun r => r.id == a.id) = true := by
      rw [haid, List.any_eq_true]
      exact List.countP_pos_iff.mp (by omega)
    have hins : ∀ st2, insertArtist st a ≠ Except.ok st2 := by
      intro st2 hok
      unfold insertArtist at hok
      split_ifs at hok
    cases hie : insertArtist st a with
    | ok st2 => exact absurd hie (hins st2)
    | error e2 =>
      refine ⟨?_, ?_, ?_⟩ <;> simp [add_artist, htr, hfa, hie, hcount]

/-- Witness for C7: re-adding id "a1" on a store holding exactly one artist
with id "a1" fails and keeps that count at one. -/
theorem duplicate_artist_id_rejected_witness :
    (add_artist none (some (JVal.obj [("id", JVal.str "a1"), ("name", JVal.str "B")]))
        (Store.mk [Artist.mk (some "a1") (some "A") none none none none] [] [])).1.status = 400 ∧
    (add_artist none (some (JVal.obj [("id", JVal.str "a1"), ("name", JVal.str "B")]))
        (Store.mk [Artist.mk (some "a1") (some "A") none none none none] [] [])).2 =
      Store.mk [Artist.mk (some "a1") (some "A") none none none none] [] [] ∧
    (add_artist none (some (JVal.obj [("id", JVal.str "a1"), ("name", JVal.str "B")]))
        (Store.mk [Artist.mk (some "a1") (some "A") none none none none] [] [])).2.artists.countP
      (fun r => r.id == some "a1") = 1 :=
  duplicate_artist_id_rejected
    (Store.mk [Artist.mk (some "a1") (some "A") none none none none] [] [])
    (JVal.obj [("id", JVal.str "a1"), ("name", JVal.str "B")]) "a1" rfl (by rfl)

/-- C1: For every valid artist payload whose id is not yet in the store,
add-artist succeeds (201, appending exactly the recognized fields) and a
following get-by-id with that id answers 200 with a record equal to the
recognized input fields (id, name, genres, popularity, followers, uri). -/
theorem add_then_get_artist_roundtrip (st : Store) (d : JVal) (i n : String)
    (g u : Option String) (p f : Option Int)
    (hid : getOptStr d "id" = some (some i))
    (hname : getOptStr d "name" = some (some n))
    (hg : getOptStr d "genres" = some g)
    (hp : getOptInt d "popularity" = some p)
    (hf : getOptInt d "followers" = some f)
    (hu : getOptStr d "uri" = some u)
    (huniq : ∀ r ∈ st.artists, ¬ r.id = some i) :
    add_artist none (some d) st =
      (⟨201, msgBody "Artist added successfully"⟩,
        { st with artists := st.artists ++ [Artist.mk (some i) (some n) g p f u] }) ∧
    get_artist none i (add_artist none (some d) st).2 =
      ⟨200, JVal.obj [("id", JVal.str i), ("name", JVal.str n), ("genres", jStr g),
        ("popularity", jInt p), ("followers", jInt f), ("uri", jStr u)]⟩ := by
  have htr : d.truthy = true := getKey_truthy (getOptStr_str hid)
  have hfa : artistFromJson d = some (Artist.mk (some i) (some n) g p f u) := by
    unfold artistFromJson
    rw [hid, hname, hg, hp, hf, hu]
  have hany : st.artists.any (fun r => r.id == some i) = false := by
    rw [List.any_eq_false]
    intro r hr
    simpa using huniq r hr
  have hins : insertArtist st (Artist.mk (some i) (some n) g p f u) =
      Except.ok { st with artists := st.artists ++ [Artist.mk (some i) (some n) g p f u] } := by
    unfold insertArtist
    simp [hany]
  have hadd : add_artist none (some d) st =
      (⟨201, msgBody "Artist added successfully"⟩,
        { st with artists := st.artists ++ [Artist.mk (some i) (some n) g p f u] }) := by
    simp [add_artist, htr, hfa, hins]
  refine ⟨hadd, ?_⟩
  rw [hadd]
  have hfind : (st.artists ++ [Artist.mk (some i) (some n) g p f u]).find?
      (fun r => r.id == some i) = some (Artist.mk (some i) (some n) g p f u) := by
    rw [List.find?_append]
    have h1 : st.artists.find? (fun r => r.id == some i) = none := by
      rw [List.find?_eq_none]
      intro x hx
      simpa using huniq x hx
    rw [h1]
    simp [List.find?]
  simp [get_artist, hfind, Artist.to_dict, jStr]

/-- Witness for C1: a full concrete artist payload on the empty store. -/
theorem add_then_get_artist_roundtrip_witness :
    add_artist none
        (some (JVal.obj [("id", JVal.str "a1"), ("name", JVal.str "Muse"),
          ("genres", JVal.str "rock"), ("popularity", JVal.num 80),
          ("followers", JVal.num 1000), ("uri", JVal.str "spotify:artist:a1")]))
        Store.empty =
      (⟨201, msgBody "Artist added successfully"⟩,
        { Store.empty with artists := Store.empty.artists ++
            [Artist.mk (some "a1") (some "Muse") (some "rock") (some 80)
              (some 1000) (some "spotify:artist:a1")] }) ∧
    get_artist none "a1"
        (add_artist none
          (some (JVal.obj [("id", JVal.str "a1"), ("name", JVal.str "Muse"),
            ("genres", JVal.str "rock"), ("popularity", JVal.num 80),
            ("followers", JVal.num 1000), ("uri", JVal.str "spotify:artist:a1")]))
          Store.empty).2 =
      ⟨200, JVal.obj [("id", JVal.str "a1"), ("name", JVal.str "Muse"),
        ("genres", jStr (some "rock")), ("popularity", jInt (some 80)),
        ("followers", jInt (some 1000)), ("uri", jStr (some "spotify:artist:a1"))]⟩ :=
  add_then_get_artist_roundtrip Store.empty
    (JVal.obj [("id", JVal.str "a1"), ("name", JVal.str "Muse"),
      ("genres", JVal.str "rock"), ("popularity", JVal.num 80),
      ("followers", JVal.num 1000), ("uri", JVal.str "spotify:artist:a1")])
    "a1" "Muse" (some "rock") (some "spotify:artist:a1") (some 80) (some 1000)
    rfl rfl rfl rfl rfl rfl (by simp [Store.empty])

/-- C8: For add-album with an otherwise valid payload referencing an
existing artist, a release_date string that fails to parse (for example
the empty string or the length-9 string "2020-05-1") does not fail the
request: the add succeeds with 201 and the stored record has release_date
unset. -/
theorem add_album_bad_release_date_succeeds (st : Store) (d : JVal)
    (i aid n rs : String) (aty rdp u : Option String) (tt : Option Int)
    (hid : getOptStr d "id" = some (some i))
    (haid : getOptStr d "artist_id" = some (some aid))
    (hname : getOptStr d "name" = some (some n))
    (haty : getOptStr d "album_type" = some aty)
    (hrd : d.getKey "release_date" = some (JVal.str rs))
    (hrs : parse_release_date (some rs) = none)
    (hrdp : getOptStr d "release_date_precision" = some rdp)
    (htt : getOptInt d "total_tracks" = some tt)
    (hu : getOptStr d "uri" = some u)
    (hfk : st.artists.any (fun r => r.id == some aid) = true)
    (huniq : ∀ r ∈ st.albums, ¬ r.id = some i) :
    add_album none (some d) st =
      (⟨201, msgBody "Album added successfully"⟩,
        { st with albums := st.albums ++
            [Album.mk (some i) (some aid) (some n) aty none rdp tt u] }) := by
  have htr : d.truthy = true := getKey_truthy (getOptStr_str hid)
  have hprd : parseReleaseDateField (d.getKey "release_date") = none := by
    rw [hrd]
    simpa [parseReleaseDateField] using hrs
  have hfa : albumFromJson d =
      some (Album.mk (some i) (some aid) (some n) aty none rdp tt u) := by
    unfold albumFromJson
    rw [hid, haid, hname, haty, hrdp, htt, hu]
    rw [hprd]
  have hany : st.albums.any (fun r => r.id == some i) = false := by
    rw [List.any_eq_false]
    intro r hr
    simpa using huniq r hr
  have hins : insertAlbum st (Album.mk (some i) (some aid) (some n) aty none rdp tt u) =
      Except.ok { st with albums := st.albums ++
        [Album.mk (some i) (some aid) (some n) aty none rdp tt u] } := by
    unfold insertAlbum
    simp [hfk, hany]
  simp [add_album, htr, hfa, hins]

/-- Witness for C8: an album payload whose release_date is the empty string
still succeeds and stores no release date. -/
theorem add_album_bad_release_date_succeeds_witness :
    add_album none
        (some (JVal.obj [("id", JVal.str "al1"), ("artist_id", JVal.str "a1"),
          ("name", JVal.str "X"), ("release_date", JVal.str "")]))
        (Store.mk [Artist.mk (some "a1") (some "A") none none none none] [] []) =
      (⟨201, msgBody "Album added successfully"⟩,
        { Store.mk [Artist.mk (some "a1") (some "A") none none none none] [] [] with
            albums := [] ++ [Album.mk (some "al1") (some "a1") (some "X")
              none none none none none] }) :=
  add_album_bad_release_date_succeeds
    (Store.mk [Artist.mk (some "a1") (some "A") none none none none] [] [])
    (JVal.obj [("id", JVal.str "al1"), ("artist_id", JVal.str "a1"),
      ("name", JVal.str "X"), ("release_date", JVal.str "")])
    "al1" "a1" "X" "" none none none none
    rfl rfl rfl rfl rfl rfl rfl rfl rfl rfl (by simp)

end SpotifyApi
